import Mathlib

/-!
Formal model of the docker-cost-analyzer core: the snapshot parser and waste
classifier (`src/analyzers/resources.py`), the security rule engine
(`src/analyzers/security.py`) and the trend store (`src/monitoring/database.py`),
as a shallow embedding in Lean. Python floats are idealized as exact rationals;
Python dict accesses `d[k]` and `d.get(k, v)` are modelled with `Option` fields;
exceptions are modelled with `Except`; Python `list.sort` (a stable ascending
sort) and the SQL `ORDER BY` are modelled with `List.mergeSort`.
-/

namespace DCA

/-- Arithmetic mean of a list of rationals (`statistics.mean`); every use below is
guarded by a non-emptiness check, exactly as in the source. -/
def mean (l : List ℚ) : ℚ := l.sum / l.length

/-- Round to the nearest integer with ties to even, the semantics of Python
`round` idealized over exact rationals. -/
def roundHalfEven (x : ℚ) : ℤ :=
  let f := ⌊x⌋
  let r := x - f
  if r < 1/2 then f
  else if 1/2 < r then f + 1
  else if f % 2 = 0 then f else f + 1

/-- Python `round(x, 2)`. -/
def pyRound2 (x : ℚ) : ℚ := (roundHalfEven (x * 100) : ℚ) / 100

/-- Python format `f"{x:.2f}"` for a non-negative value. -/
def fmt2 (x : ℚ) : String :=
  let k := (roundHalfEven (x * 100)).toNat
  toString (k / 100) ++ (".") ++
    (if k % 100 < 10 then ("0") ++ toString (k % 100) else toString (k % 100))

/-- Python format `f"{x:.0f}"` for a non-negative value. -/
def fmt0 (x : ℚ) : String := toString (roundHalfEven x).toNat

/-- The `cpu_usage` sub-dictionary of a raw Docker stats snapshot; `total_usage`
may be absent. -/
structure CpuUsageRaw where
  total_usage : Option ℕ
  deriving DecidableEq, Repr

/-- The `cpu_stats` / `precpu_stats` sub-dictionary of a raw snapshot. -/
structure CpuStatsRaw where
  cpu_usage : Option CpuUsageRaw
  system_cpu_usage : Option ℕ
  online_cpus : Option ℕ
  deriving DecidableEq, Repr

/-- The `memory_stats` sub-dictionary of a raw snapshot. -/
structure MemoryStatsRaw where
  usage : Option ℕ
  limit : Option ℕ
  max_usage : Option ℕ
  deriving DecidableEq, Repr

/-- A raw Docker stats snapshot, restricted to the fields `_parse_stats` reads.
Each sub-dictionary may itself be absent. -/
structure RawStats where
  cpu_stats : Option CpuStatsRaw
  precpu_stats : Option CpuStatsRaw
  memory_stats : Option MemoryStatsRaw
  deriving DecidableEq, Repr

/-- The normalized sample dict returned by `ResourceAnalyzer._parse_stats`; its
keys are exactly `parseStatsKeys`. -/
structure MetricSample where
  cpu_percent : ℚ
  cpu_limit : ℕ
  memory_usage_bytes : ℕ
  memory_limit_bytes : ℕ
  memory_percent : ℚ
  deriving DecidableEq, Repr

/-- The key set of the dict literal returned by `_parse_stats` (lines 111-117 of
`resources.py`): the returned sample carries these five entries and nothing else. -/
def parseStatsKeys : List String :=
  [("cpu_percent"), ("cpu_limit"), ("memory_usage_bytes"), ("memory_limit_bytes"),
   ("memory_percent")]

/-- Python `d[key]` on an optional field: the value when present, a `KeyError`
otherwise. -/
def req {α : Type} (o : Option α) (key : String) : Except String α :=
  match o with
  | some a => Except.ok a
  | none => Except.error (("KeyError: ") ++ key)

/-- `ResourceAnalyzer._parse_stats`: CPU percent from the counter deltas of two
consecutive snapshots (0.0 unless both deltas are strictly positive), memory
percent from usage and limit, substituting `max_usage` (or twice the usage) for
an unset (zero) limit. Counter fields reached with `[]` raise `KeyError` when
absent; `online_cpus`, `usage`, `limit` and `max_usage` are read with `.get`
defaults 1, 0, 1 and `usage * 2`. -/
def parse_stats (stats : RawStats) : Except String MetricSample := do
  let cs ← req stats.cpu_stats ("cpu_stats")
  let cu ← req cs.cpu_usage ("cpu_usage")
  let total ← req cu.total_usage ("total_usage")
  let pcs ← req stats.precpu_stats ("precpu_stats")
  let pcu ← req pcs.cpu_usage ("cpu_usage")
  let ptotal ← req pcu.total_usage ("total_usage")
  let sys ← req cs.system_cpu_usage ("system_cpu_usage")
  let psys ← req pcs.system_cpu_usage ("system_cpu_usage")
  let cpu_delta : ℤ := (total : ℤ) - (ptotal : ℤ)
  let system_delta : ℤ := (sys : ℤ) - (psys : ℤ)
  let online_cpus : ℕ := cs.online_cpus.getD 1
  let cpu_percent : ℚ :=
    if 0 < system_delta ∧ 0 < cpu_delta then
      ((cpu_delta : ℚ) / (system_delta : ℚ)) * (online_cpus : ℚ) * 100
    else 0
  let ms ← req stats.memory_stats ("memory_stats")
  let mem_usage : ℕ := ms.usage.getD 0
  let mem_limit0 : ℕ := ms.limit.getD 1
  let mem_limit : ℕ := if mem_limit0 = 0 then ms.max_usage.getD (mem_usage * 2) else mem_limit0
  let mem_percent : ℚ :=
    if 0 < mem_limit then ((mem_usage : ℚ) / (mem_limit : ℚ)) * 100 else 0
  return { cpu_percent := cpu_percent, cpu_limit := online_cpus,
           memory_usage_bytes := mem_usage, memory_limit_bytes := mem_limit,
           memory_percent := mem_percent }

/-- The data kept by `ResourceAnalyzer.collect_metrics`: each snapshot is parsed
inside a try/except whose handler prints and continues, so a sample that fails
to parse is dropped and the loop moves on to the remaining samples. -/
def collect_metrics (raws : List RawStats) : List MetricSample :=
  raws.filterMap (fun s => (parse_stats s).toOption)

/-- The `ResourceWaste` dataclass of `resources.py`; the source field
`recommendation` is called `recommend` here. -/
structure ResourceWaste where
  resource_type : String
  allocated : ℚ
  used : ℚ
  waste_percent : ℚ
  waste_amount : ℚ
  monthly_cost_waste : ℚ
  recommend : String
  deriving DecidableEq, Repr

/-- `ResourceAnalyzer.COST_PER_CPU_HOUR`. -/
def COST_PER_CPU_HOUR : ℚ := 0.04

/-- `ResourceAnalyzer.COST_PER_GB_HOUR`. -/
def COST_PER_GB_HOUR : ℚ := 0.005

/-- `ResourceAnalyzer.HOURS_PER_MONTH`. -/
def HOURS_PER_MONTH : ℚ := 730

/-- `ResourceAnalyzer.WASTE_THRESHOLD_CPU`. -/
def WASTE_THRESHOLD_CPU : ℚ := 20

/-- `ResourceAnalyzer.WASTE_THRESHOLD_MEMORY`. -/
def WASTE_THRESHOLD_MEMORY : ℚ := 30

/-- The CPU recommendation text of `resources.py` line 171. -/
def cpuRecommendText (r : ℚ) : String :=
  ("Réduire à ") ++ fmt2 r ++ (" vCPUs (--cpus=") ++ fmt2 r ++ (")")

/-- The memory recommendation text of `resources.py` line 199. -/
def memRecommendText (r : ℚ) : String :=
  ("Réduire à ") ++ fmt0 r ++ ("MB (--memory=") ++ fmt0 r ++ ("m)")

/-- Average of the `cpu_percent` entries of a sample window (`resources.py`
lines 137-139). -/
def avgCpu (history : List MetricSample) : ℚ :=
  mean (history.map fun m => m.cpu_percent)

/-- Average of the `memory_percent` entries of a sample window (lines 140-142). -/
def avgMem (history : List MetricSample) : ℚ :=
  mean (history.map fun m => m.memory_percent)

/-- Average of the `memory_usage_bytes` entries of a sample window
(lines 179-181). -/
def avgUsage (history : List MetricSample) : ℚ :=
  mean (history.map fun m => (m.memory_usage_bytes : ℚ))

/-- The CPU branch of `ResourceAnalyzer.analyze` (lines 152-172): the waste
record built when `avg_cpu_percent < WASTE_THRESHOLD_CPU`. -/
def cpuWaste (avg_cpu_percent : ℚ) (cpu_limit : ℕ) : ResourceWaste :=
  let cpu_used := (avg_cpu_percent / 100) * (cpu_limit : ℚ)
  let cpu_wasted := (cpu_limit : ℚ) - cpu_used
  { resource_type := ("cpu"), allocated := (cpu_limit : ℚ), used := cpu_used,
    waste_percent := (cpu_wasted / (cpu_limit : ℚ)) * 100,
    waste_amount := cpu_wasted,
    monthly_cost_waste := pyRound2 (cpu_wasted * COST_PER_CPU_HOUR * HOURS_PER_MONTH),
    recommend := cpuRecommendText (max 0.25 (cpu_used * 1.5)) }

/-- The memory branch of `ResourceAnalyzer.analyze` (lines 177-200): the waste
record built when `avg_mem_percent < WASTE_THRESHOLD_MEMORY`, from the averaged
usage and the first sample's limit. -/
def memWaste (avg_mem_usage_bytes : ℚ) (mem_limit_bytes : ℕ) : ResourceWaste :=
  let mem_limit_gb := (mem_limit_bytes : ℚ) / 1024 ^ 3
  let mem_used_gb := avg_mem_usage_bytes / 1024 ^ 3
  let mem_wasted_gb := mem_limit_gb - mem_used_gb
  { resource_type := ("memory"), allocated := mem_limit_gb, used := mem_used_gb,
    waste_percent := if 0 < mem_limit_gb then (mem_wasted_gb / mem_limit_gb) * 100 else 0,
    waste_amount := mem_wasted_gb,
    monthly_cost_waste := pyRound2 (mem_wasted_gb * COST_PER_GB_HOUR * HOURS_PER_MONTH),
    recommend := memRecommendText (max 128 ((mem_used_gb * 1.5) * 1024)) }

/-- `ResourceAnalyzer.analyze` on an already collected window: an empty window
returns the empty dict (line 132); otherwise the CPU and memory policies run
independently, averaging over the whole window and taking the limits from the
first sample. When the CPU branch fires with a zero core count the Python
division `cpu_wasted / cpu_limit` raises `ZeroDivisionError`, modelled as the
error case. The result dict is modelled as an association list in insertion
order (`cpu` then `memory`). -/
def analyze (history : List MetricSample) : Except String (List (String × ResourceWaste)) :=
  match history with
  | [] => Except.ok []
  | m0 :: _ =>
    if avgCpu history < WASTE_THRESHOLD_CPU ∧ m0.cpu_limit = 0 then
      Except.error ("ZeroDivisionError")
    else
      Except.ok
        ((if avgCpu history < WASTE_THRESHOLD_CPU then
            [(("cpu"), cpuWaste (avgCpu history) m0.cpu_limit)]
          else []) ++
         (if avgMem history < WASTE_THRESHOLD_MEMORY then
            [(("memory"), memWaste (avgUsage history) m0.memory_limit_bytes)]
          else []))

/-- The entry of the findings dict of `analyze` at a given key, when the
analysis did not raise. -/
def findWaste (k : String) (history : List MetricSample) : Option ResourceWaste :=
  (analyze history).toOption.bind (fun l => List.lookup k l)

/-- The `Severity` enumeration of `security.py`. -/
inductive Severity where
  | CRITICAL
  | HIGH
  | MEDIUM
  | LOW
  | INFO
  deriving DecidableEq, Repr

/-- The rank each severity gets in the `severity_order` dict of
`SecurityAnalyzer.analyze` (lines 101-107): CRITICAL first. -/
def severityOrder : Severity → ℕ
  | Severity.CRITICAL => 0
  | Severity.HIGH => 1
  | Severity.MEDIUM => 2
  | Severity.LOW => 3
  | Severity.INFO => 4

/-- The `SecurityIssue` dataclass; the source field `recommendation` is called
`recommend` here. -/
structure SecurityIssue where
  check_name : String
  severity : Severity
  title : String
  description : String
  impact : String
  recommend : String
  deriving DecidableEq, Repr

/-- One host binding of an exposed port: the `HostIp` / `HostPort` entries read
with `.get(_, '')`. -/
structure PortBinding where
  HostIp : Option String
  HostPort : Option String
  deriving DecidableEq, Repr

/-- One entry of the `NetworkSettings.Ports` dict. The source splits the dict
key of the form `"80/tcp"` into a port number and a protocol; the key arrives
pre-split here (Docker keys always have that shape). The binding list of an
entry may be null. -/
structure PortEntry where
  port : ℕ
  proto : String
  bindings : Option (List PortBinding)
  deriving DecidableEq, Repr

/-- The container configuration snapshot (`container.attrs`) restricted to the
fields the checks read. `user`, `capAdd`, `privileged`, `env`,
`readonlyRootfs` and `securityOpt` model `.get` accesses whose key may be
absent (or whose value may be null for `ports` and `capAdd`). `ageDays` models
the image-age lookup of `_check_image_age`, whose whole body runs inside a
try/except: `none` stands for an image whose creation date could not be
obtained (the check is then skipped), `some d` for an image `d` days old at
evaluation time. `imageTags` is `image.tags`. -/
structure ContainerConfig where
  user : Option String
  ports : Option (List PortEntry)
  capAdd : Option (List String)
  privileged : Option Bool
  env : Option (List String)
  readonlyRootfs : Option Bool
  securityOpt : Option (List String)
  ageDays : Option ℤ
  imageTags : List String
  deriving DecidableEq, Repr

/-- `SecurityAnalyzer.DANGEROUS_CAPS`, listed in ascending lexicographic order
so that filtering it reproduces Python's `sorted(caps_add & DANGEROUS_CAPS)`. -/
def DANGEROUS_CAPS_SORTED : List String :=
  [("ALL"), ("DAC_OVERRIDE"), ("NET_ADMIN"), ("SYS_ADMIN"), ("SYS_MODULE"),
   ("SYS_PTRACE")]

/-- `SecurityAnalyzer.SENSITIVE_PORTS`. -/
def SENSITIVE_PORTS : List (ℕ × String) :=
  [(22, ("SSH")), (3306, ("MySQL")), (5432, ("PostgreSQL")), (6379, ("Redis")),
   (27017, ("MongoDB")), (9200, ("Elasticsearch")), (5984, ("CouchDB")),
   (3389, ("RDP"))]

/-- Python's `pat in s` substring test. -/
def strContains (s pat : String) : Bool :=
  s.toList.tails.any (fun t => pat.toList.isPrefixOf t)

/-- `_check_user` (lines 112-127). -/
def check_user (c : ContainerConfig) : List SecurityIssue :=
  let user := c.user.getD ("")
  if user = ("") ∨ user = ("root") ∨ user = ("0") ∨ user = ("0:0") then
    [{ check_name := ("user_root"), severity := Severity.CRITICAL,
       title := ("Container running as root"),
       description := ("Le container tourne avec l\x27utilisateur root (UID 0)"),
       impact := ("Si le container est compromis, l\x27attaquant a accès root et peut échapper du container"),
       recommend := ("Ajouter \x27USER 1000\x27 dans le Dockerfile ou utiliser --user=1000:1000") }]
  else []

/-- `_check_exposed_ports` (lines 129-167): one issue per binding that listens
on all interfaces, CRITICAL for a sensitive port, HIGH otherwise. -/
def check_exposed_ports (c : ContainerConfig) : List SecurityIssue :=
  (c.ports.getD []).flatMap fun e =>
    match e.bindings with
    | none => []
    | some bs =>
      bs.flatMap fun b =>
        let host_ip := b.HostIp.getD ("")
        let host_port := b.HostPort.getD ("")
        if host_ip = ("0.0.0.0") ∨ host_ip = ("") then
          let sevTitle :=
            match List.lookup e.port SENSITIVE_PORTS with
            | some service => (Severity.CRITICAL, service ++ (" exposed to internet"))
            | none => (Severity.HIGH, ("Port ") ++ toString e.port ++ (" exposed to internet"))
          [{ check_name := ("public_port_exposure"), severity := sevTitle.1,
             title := sevTitle.2,
             description := ("Port ") ++ toString e.port ++ ("/") ++ e.proto ++
               (" est accessible depuis internet (0.0.0.0:") ++ host_port ++ (")"),
             impact := ("N\x27importe qui sur internet peut accéder à ce service. Risque de brute-force, exploitation de CVE"),
             recommend := ("Bind sur 127.0.0.1 uniquement : -p 127.0.0.1:") ++ host_port ++
               (":") ++ toString e.port ++ (" ou utilisez un firewall") }]
        else []

/-- `_check_capabilities` (lines 169-197). `sorted(set(caps_add) & DANGEROUS_CAPS)`
is reproduced by filtering the sorted constant list. -/
def check_capabilities (c : ContainerConfig) : List SecurityIssue :=
  let caps_add := c.capAdd.getD []
  let dangerous := DANGEROUS_CAPS_SORTED.filter (fun cap => caps_add.contains cap)
  if dangerous.isEmpty then []
  else
    let caps_list := String.intercalate (", ") dangerous
    let sevTitle :=
      if dangerous.contains ("ALL") then
        (Severity.CRITICAL, ("All capabilities granted"))
      else (Severity.HIGH, ("Dangerous capabilities: ") ++ caps_list)
    [{ check_name := ("dangerous_capabilities"), severity := sevTitle.1,
       title := sevTitle.2,
       description := ("Capabilities dangereuses accordées : ") ++ caps_list,
       impact := ("Ces capabilities donnent des privilèges kernel élevés qui peuvent être exploités pour échapper du container"),
       recommend := ("Retirer capabilities : --cap-drop=") ++ caps_list ++
         (" ou n\x27ajouter que les capabilities nécessaires") }]

/-- `_check_privileged` (lines 199-211). -/
def check_privileged (c : ContainerConfig) : List SecurityIssue :=
  if c.privileged.getD false then
    [{ check_name := ("privileged_mode"), severity := Severity.CRITICAL,
       title := ("Container running in privileged mode"),
       description := ("Le container tourne avec --privileged"),
       impact := ("Accès complet au host système. Le container peut faire absolument n\x27importe quoi : charger modules kernel, accéder devices, etc. Équivaut à root sur le host"),
       recommend := ("Retirer --privileged. Utiliser --cap-add pour ajouter seulement les capabilities nécessaires") }]
  else []

/-- The secret name patterns of `_check_secrets_in_env` (lines 219-225). -/
def SECRET_PATTERNS : List String :=
  [("PASSWORD"), ("PASSWD"), ("PWD"), ("SECRET"), ("KEY"), ("TOKEN"),
   ("API_KEY"), ("APIKEY"), ("AUTH"), ("CREDENTIAL"), ("PRIVATE")]

/-- `_check_secrets_in_env` (lines 213-247): a MEDIUM issue per `KEY=value`
environment entry whose upper-cased name contains a secret pattern and whose
value is neither empty nor an obvious placeholder. -/
def check_secrets_in_env (c : ContainerConfig) : List SecurityIssue :=
  (c.env.getD []).flatMap fun e =>
    if e.contains '=' then
      let parts := e.splitOn ("=")
      let key := parts.headD ("")
      let value := String.intercalate ("=") parts.tail
      if SECRET_PATTERNS.any (fun pat => strContains key.toUpper pat) then
        if value ≠ ("") ∧ value ≠ ("changeme") ∧ value ≠ ("TODO") ∧ value ≠ ("xxx") then
          [{ check_name := ("secret_in_env"), severity := Severity.MEDIUM,
             title := ("Potential secret in env: ") ++ key,
             description := ("Variable d\x27environnement \x27") ++ key ++
               ("\x27 semble contenir un secret"),
             impact := ("Secrets visibles via \x27docker inspect\x27, logs, /proc/. Peuvent fuiter dans monitoring, crash dumps"),
             recommend := ("Utiliser Docker secrets (Swarm) ou secrets manager (Kubernetes, Vault). Ou monter fichier via volume read-only") }]
        else []
      else []
    else []

/-- `_check_readonly_rootfs` (lines 249-261). -/
def check_readonly_rootfs (c : ContainerConfig) : List SecurityIssue :=
  if c.readonlyRootfs.getD false then []
  else
    [{ check_name := ("writable_rootfs"), severity := Severity.LOW,
       title := ("Root filesystem is writable"),
       description := ("Le filesystem root du container est modifiable"),
       impact := ("Un attaquant peut modifier binaires, installer backdoors, persister sur le filesystem"),
       recommend := ("Utiliser --read-only avec tmpfs pour /tmp : --read-only --tmpfs /tmp") }]

/-- `_check_security_opts` (lines 263-290): AppArmor disabled is MEDIUM,
seccomp disabled is HIGH. -/
def check_security_opts (c : ContainerConfig) : List SecurityIssue :=
  let sec_opts := c.securityOpt.getD []
  (if sec_opts.contains ("apparmor=unconfined") then
    [{ check_name := ("apparmor_disabled"), severity := Severity.MEDIUM,
       title := ("AppArmor disabled"),
       description := ("AppArmor est désactivé (apparmor=unconfined)"),
       impact := ("Pas de Mandatory Access Control. Le kernel ne limite pas les actions du container"),
       recommend := ("Retirer \x27apparmor=unconfined\x27 pour utiliser le profil par défaut") }]
   else []) ++
  (if sec_opts.contains ("seccomp=unconfined") then
    [{ check_name := ("seccomp_disabled"), severity := Severity.HIGH,
       title := ("Seccomp disabled"),
       description := ("Seccomp est désactivé (seccomp=unconfined)"),
       impact := ("Aucun filtrage des syscalls. Le container peut appeler n\x27importe quel syscall kernel, y compris les dangereux"),
       recommend := ("Retirer \x27seccomp=unconfined\x27 ou créer profil seccomp custom") }]
   else [])

/-- `_check_image_age` (lines 292-327): LOW past 180 days, MEDIUM past 365; a
failed lookup (`none`) is skipped silently by the surrounding try/except. -/
def check_image_age (c : ContainerConfig) : List SecurityIssue :=
  match c.ageDays with
  | none => []
  | some age =>
    if 180 < age then
      [{ check_name := ("outdated_image"),
         severity := if 365 < age then Severity.MEDIUM else Severity.LOW,
         title := ("Image is ") ++ toString age.toNat ++ (" days old"),
         description := ("L\x27image Docker a ") ++ toString age.toNat ++ (" jours (") ++
           toString (age.toNat / 30) ++ (" mois)"),
         impact := ("Image potentiellement avec CVE connus, packages non patchés"),
         recommend := ("Rebuild l\x27image avec la dernière version de base. Tag actuel : ") ++
           c.imageTags.headD ("none") }]
    else []

/-- The checks of `SecurityAnalyzer.analyze` concatenated in registration order
(lines 91-98). -/
def allChecks (c : ContainerConfig) : List SecurityIssue :=
  check_user c ++ check_exposed_ports c ++ check_capabilities c ++
  check_privileged c ++ check_secrets_in_env c ++ check_readonly_rootfs c ++
  check_security_opts c ++ check_image_age c

/-- The comparison `issues.sort(key=lambda x: severity_order[x.severity])` sorts
by. -/
def severityLE (a b : SecurityIssue) : Bool :=
  decide (severityOrder a.severity ≤ severityOrder b.severity)

/-- `SecurityAnalyzer.analyze`: run every check, then sort the issues by
severity rank. Python's `list.sort` is a stable ascending sort, modelled by
`List.mergeSort`. -/
def securityAnalyze (c : ContainerConfig) : List SecurityIssue :=
  (allChecks c).mergeSort severityLE

/-- One persisted row of the `metrics` table of `database.py`. Timestamps are
modelled as integer epoch seconds. -/
structure MetricRow where
  id : ℕ
  container_id : String
  container_name : String
  timestamp : ℤ
  cpu_percent : ℚ
  memory_usage_mb : ℚ
  memory_limit_mb : ℚ
  waste_cpu_cost : ℚ
  waste_memory_cost : ℚ
  deriving DecidableEq, Repr

/-- The row `MetricsDB.store_metric` inserts: the written field values plus the
autoincrement id and the insertion-time timestamp. The log being strictly
append-only, the next autoincrement id is one more than the row count. -/
def storedRow (db : List MetricRow) (now : ℤ) (cid cname : String)
    (cpu mu ml wc wm : ℚ) : MetricRow :=
  { id := db.length + 1, container_id := cid, container_name := cname,
    timestamp := now, cpu_percent := cpu, memory_usage_mb := mu,
    memory_limit_mb := ml, waste_cpu_cost := wc, waste_memory_cost := wm }

/-- `MetricsDB.store_metric` (lines 60-73): a single atomic append. -/
def store_metric (db : List MetricRow) (now : ℤ) (cid cname : String)
    (cpu mu ml wc wm : ℚ) : List MetricRow :=
  db ++ [storedRow db now cid cname cpu mu ml wc wm]

/-- The WHERE clause shared by `get_history` and `get_waste_trend`: same
container name and timestamp within the last `days` days of the query time. -/
def windowPred (cname : String) (days : ℕ) (now : ℤ) (r : MetricRow) : Bool :=
  r.container_name == cname && decide (now - (days : ℤ) * 86400 ≤ r.timestamp)

/-- The descending-timestamp comparison `get_history` sorts with (`ORDER BY
timestamp DESC`). -/
def tsGE (a b : MetricRow) : Bool :=
  decide (b.timestamp ≤ a.timestamp)

/-- `MetricsDB.get_history` (lines 75-86): the matching rows ordered by
timestamp descending. -/
def get_history (db : List MetricRow) (cname : String) (days : ℕ) (now : ℤ) :
    List MetricRow :=
  (db.filter (windowPred cname days now)).mergeSort tsGE

/-- The dict returned by `MetricsDB.get_waste_trend`. -/
structure WasteTrend where
  avg_waste : ℚ
  max_waste : ℚ
  min_waste : ℚ
  samples : ℕ
  deriving DecidableEq, Repr

/-- `MetricsDB.get_waste_trend` (lines 109-129): SQL AVG/MAX/MIN/COUNT of
`waste_cpu_cost + waste_memory_cost` over the matching rows; on an empty row
set the aggregates are NULL and `row[i] or 0` turns them into 0 while
`COUNT(*)` is 0. -/
def get_waste_trend (db : List MetricRow) (cname : String) (days : ℕ) (now : ℤ) :
    WasteTrend :=
  match (db.filter (windowPred cname days now)).map
      (fun r => r.waste_cpu_cost + r.waste_memory_cost) with
  | [] => { avg_waste := 0, max_waste := 0, min_waste := 0, samples := 0 }
  | w :: ws =>
    { avg_waste := mean (w :: ws), max_waste := ws.foldl max w,
      min_waste := ws.foldl min w, samples := ws.length + 1 }

/-- The fields of a raw snapshot that `_parse_stats` reaches with a bare `[]`
access (so whose absence raises): the two `cpu_usage.total_usage` counters, the
two `system_cpu_usage` counters, and the three sub-dictionaries themselves.
Written from the claim's point of view, to be compared with `parse_stats`. -/
def requiredCounterFieldsPresent (s : RawStats) : Bool :=
  match s.cpu_stats, s.precpu_stats, s.memory_stats with
  | some cs, some pcs, some _ =>
    (match cs.cpu_usage with
     | some cu => cu.total_usage.isSome
     | none => false) &&
    (match pcs.cpu_usage with
     | some pcu => pcu.total_usage.isSome
     | none => false) &&
    cs.system_cpu_usage.isSome && pcs.system_cpu_usage.isSome
  | _, _, _ => false

/-- Transitivity of the descending-timestamp comparison. -/
theorem tsGE_trans : ∀ a b c : MetricRow, tsGE a b → tsGE b c → tsGE a c := by
  intro a b c hab hbc
  simp only [tsGE, decide_eq_true_eq] at *
  omega

/-- Totality of the descending-timestamp comparison. -/
theorem tsGE_total : ∀ a b : MetricRow, tsGE a b || tsGE b a := by
  intro a b
  simp only [tsGE, Bool.or_eq_true, decide_eq_true_eq]
  omega

/-- Membership in a history query is membership in the log plus the WHERE
clause. -/
theorem mem_get_history (db : List MetricRow) (cname : String) (days : ℕ)
    (now : ℤ) (x : MetricRow) :
    x ∈ get_history db cname days now ↔
      x ∈ db ∧ x.container_name = cname ∧ now - (days : ℤ) * 86400 ≤ x.timestamp := by
  simp [get_history, List.mem_mergeSort, List.mem_filter, windowPred, and_assoc]

/-- A history query is sorted by descending timestamp. -/
theorem get_history_sorted (db : List MetricRow) (cname : String) (days : ℕ)
    (now : ℤ) :
    (get_history db cname days now).Pairwise (fun a b => b.timestamp ≤ a.timestamp) := by
  have h := List.sorted_mergeSort tsGE_trans tsGE_total
    (db.filter (windowPred cname days now))
  exact h.imp (fun hab => by simpa [tsGE] using hab)

/-- C7: every metrics record appended by `store_metric` carries exactly the
written field values and is returned by any later `get_history` call for the
same container name whose day window covers the record's timestamp; every row a
history query returns is a logged row of that container inside the window
(rows outside the window are excluded); and the returned list is ordered by
descending timestamp. -/
theorem C7_store_history_roundtrip (db : List MetricRow) (now : ℤ)
    (cid cname : String) (cpu mu ml wc wm : ℚ) (days : ℕ) (qnow : ℤ) :
    ((storedRow db now cid cname cpu mu ml wc wm).container_id = cid ∧
     (storedRow db now cid cname cpu mu ml wc wm).container_name = cname ∧
     (storedRow db now cid cname cpu mu ml wc wm).timestamp = now ∧
     (storedRow db now cid cname cpu mu ml wc wm).cpu_percent = cpu ∧
     (storedRow db now cid cname cpu mu ml wc wm).memory_usage_mb = mu ∧
     (storedRow db now cid cname cpu mu ml wc wm).memory_limit_mb = ml ∧
     (storedRow db now cid cname cpu mu ml wc wm).waste_cpu_cost = wc ∧
     (storedRow db now cid cname cpu mu ml wc wm).waste_memory_cost = wm) ∧
    (qnow - (days : ℤ) * 86400 ≤ now →
      storedRow db now cid cname cpu mu ml wc wm ∈
        get_history (store_metric db now cid cname cpu mu ml wc wm) cname days qnow) ∧
    (∀ x ∈ get_history (store_metric db now cid cname cpu mu ml wc wm) cname days qnow,
      x ∈ store_metric db now cid cname cpu mu ml wc wm ∧
      x.container_name = cname ∧ qnow - (days : ℤ) * 86400 ≤ x.timestamp) ∧
    (∀ x ∈ store_metric db now cid cname cpu mu ml wc wm,
      x.container_name = cname → qnow - (days : ℤ) * 86400 ≤ x.timestamp →
      x ∈ get_history (store_metric db now cid cname cpu mu ml wc wm) cname days qnow) ∧
    (get_history (store_metric db now cid cname cpu mu ml wc wm) cname days qnow).Pairwise
      (fun a b => b.timestamp ≤ a.timestamp) := by
  refine ⟨⟨rfl, rfl, rfl, rfl, rfl, rfl, rfl, rfl⟩, ?_, ?_, ?_, ?_⟩
  · intro hwin
    rw [mem_get_history]
    exact ⟨by simp [store_metric], rfl, hwin⟩
  · intro x hx
    exact (mem_get_history _ _ _ _ x).mp hx
  · intro x hx hname hwin
    exact (mem_get_history _ _ _ _ x).mpr ⟨hx, hname, hwin⟩
  · exact get_history_sorted _ _ _ _

/-- C7 witness: storing a row for nginx and querying a 7-day window at the same
instant returns the stored row. -/
theorem C7_store_history_roundtrip_witness :
    storedRow [] 1000 ("id1") ("nginx") 1 2 3 4 5 ∈
      get_history (store_metric [] 1000 ("id1") ("nginx") 1 2 3 4 5) ("nginx") 7 1000 :=
  (C7_store_history_roundtrip [] 1000 ("id1") ("nginx") 1 2 3 4 5 7 1000).2.1 (by decide)

/-- C10: a waste-trend query whose WHERE clause matches no row returns zero
aggregates and a zero sample count rather than failing or returning nulls. -/
theorem C10_empty_trend (db : List MetricRow) (cname : String) (days : ℕ)
    (now : ℤ) (h : db.filter (windowPred cname days now) = []) :
    get_waste_trend db cname days now =
      { avg_waste := 0, max_waste := 0, min_waste := 0, samples := 0 } := by
  simp [get_waste_trend, h]

/-- C10 witness: a log holding only a redis row yields all-zero aggregates for
nginx. -/
theorem C10_empty_trend_witness :
    get_waste_trend [⟨1, ("x"), ("redis"), 0, 0, 0, 0, 0, 0⟩] ("nginx") 7 0 =
      { avg_waste := 0, max_waste := 0, min_waste := 0, samples := 0 } :=
  C10_empty_trend _ _ _ _ (by decide)

/-- C4 (amended): a classification request on a window of zero samples returns
the empty findings dict, raising nothing; the `EmptyWindow` error of the claim
does not exist in the code. -/
theorem C4_empty_window_returns_empty :
    analyze ([] : List MetricSample) = Except.ok [] := rfl

/-- C4 counterexample: the zero-sample analysis is not an error, contradicting
the claim that an `EmptyWindow` failure is surfaced to the caller. -/
theorem C4_empty_window_counterexample :
    (analyze ([] : List MetricSample)).isOk = true := rfl

/-- C2: on a pair of consecutive snapshots with all counter fields present,
parsing succeeds and the cpu percent is the delta quotient scaled by the online
core count when both deltas are strictly positive, and exactly 0 whenever
either delta is non-positive. -/
theorem C2_cpu_percent_formula (s : RawStats) (cs pcs : CpuStatsRaw)
    (cu pcu : CpuUsageRaw) (ms : MemoryStatsRaw) (t pt sy psy : ℕ)
    (h1 : s.cpu_stats = some cs) (h2 : s.precpu_stats = some pcs)
    (h3 : s.memory_stats = some ms) (h4 : cs.cpu_usage = some cu)
    (h5 : pcs.cpu_usage = some pcu) (h6 : cu.total_usage = some t)
    (h7 : pcu.total_usage = some pt) (h8 : cs.system_cpu_usage = some sy)
    (h9 : pcs.system_cpu_usage = some psy) :
    (parse_stats s).map (fun m => m.cpu_percent) =
      Except.ok (if 0 < (sy : ℤ) - (psy : ℤ) ∧ 0 < (t : ℤ) - (pt : ℤ) then
        (((t : ℤ) - (pt : ℤ) : ℤ) : ℚ) / (((sy : ℤ) - (psy : ℤ) : ℤ) : ℚ) *
          (cs.online_cpus.getD 1 : ℚ) * 100
      else 0) ∧
    ((t : ℤ) - (pt : ℤ) ≤ 0 ∨ (sy : ℤ) - (psy : ℤ) ≤ 0 →
      (parse_stats s).map (fun m => m.cpu_percent) = Except.ok 0) := by
  have hmain : (parse_stats s).map (fun m => m.cpu_percent) =
      Except.ok (if 0 < (sy : ℤ) - (psy : ℤ) ∧ 0 < (t : ℤ) - (pt : ℤ) then
        (((t : ℤ) - (pt : ℤ) : ℤ) : ℚ) / (((sy : ℤ) - (psy : ℤ) : ℤ) : ℚ) *
          (cs.online_cpus.getD 1 : ℚ) * 100
      else 0) := by
    simp [parse_stats, req, h1, h2, h3, h4, h5, h6, h7, h8, h9, bind,
      Except.bind, Except.map, pure, Except.pure]
  refine ⟨hmain, fun hle => ?_⟩
  rw [hmain, if_neg (by omega)]

/-- C2 witness, the spec's Scenario A: a zero cpu delta with a positive system
delta and two online cores parses to cpu percent 0. -/
theorem C2_cpu_percent_formula_witness :
    (parse_stats ⟨some ⟨some ⟨some 500⟩, some 2000, some 2⟩,
                  some ⟨some ⟨some 500⟩, some 1000, none⟩,
                  some ⟨some 100, some 1000, none⟩⟩).map (fun m => m.cpu_percent) =
      Except.ok 0 :=
  (C2_cpu_percent_formula _ _ _ _ _ _ 500 500 2000 1000
    rfl rfl rfl rfl rfl rfl rfl rfl rfl).2 (Or.inl (by decide))

/-- C3 (amended): when the runtime reports a zero memory limit, the parser
substitutes `max_usage` — or `2 × usage` when `max_usage` is absent — as the
limit reported in `memory_limit_bytes` and used by the percent computation;
however the returned sample carries no `limit_is_estimated` flag: its keys are
exactly the five of `parseStatsKeys`. -/
theorem C3_limit_substitution (s : RawStats) (cs pcs : CpuStatsRaw)
    (cu pcu : CpuUsageRaw) (ms : MemoryStatsRaw) (t pt sy psy : ℕ)
    (h1 : s.cpu_stats = some cs) (h2 : s.precpu_stats = some pcs)
    (h3 : s.memory_stats = some ms) (h4 : cs.cpu_usage = some cu)
    (h5 : pcs.cpu_usage = some pcu) (h6 : cu.total_usage = some t)
    (h7 : pcu.total_usage = some pt) (h8 : cs.system_cpu_usage = some sy)
    (h9 : pcs.system_cpu_usage = some psy) (hlim : ms.limit = some 0) :
    (parse_stats s).map (fun m => m.memory_limit_bytes) =
      Except.ok (ms.max_usage.getD (ms.usage.getD 0 * 2)) ∧
    (parse_stats s).map (fun m => m.memory_percent) =
      Except.ok (if 0 < ms.max_usage.getD (ms.usage.getD 0 * 2) then
        ((ms.usage.getD 0 : ℚ) / (ms.max_usage.getD (ms.usage.getD 0 * 2) : ℚ)) * 100
      else 0) ∧
    ("limit_is_estimated") ∉ parseStatsKeys := by
  refine ⟨?_, ?_, by decide⟩ <;>
    simp [parse_stats, req, h1, h2, h3, h4, h5, h6, h7, h8, h9, hlim, bind,
      Except.bind, Except.map, pure, Except.pure]

/-- C3 witness: a snapshot whose memory limit is reported as 0 and whose
`max_usage` is 500 parses with limit 500 and no estimation flag. -/
theorem C3_limit_substitution_witness :
    (parse_stats ⟨some ⟨some ⟨some 0⟩, some 0, none⟩,
                  some ⟨some ⟨some 0⟩, some 0, none⟩,
                  some ⟨some 100, some 0, some 500⟩⟩).map
        (fun m => m.memory_limit_bytes) = Except.ok 500 :=
  (C3_limit_substitution
    ⟨some ⟨some ⟨some 0⟩, some 0, none⟩, some ⟨some ⟨some 0⟩, some 0, none⟩,
     some ⟨some 100, some 0, some 500⟩⟩
    ⟨some ⟨some 0⟩, some 0, none⟩ ⟨some ⟨some 0⟩, some 0, none⟩
    ⟨some 0⟩ ⟨some 0⟩ ⟨some 100, some 0, some 500⟩ 0 0 0 0
    rfl rfl rfl rfl rfl rfl rfl rfl rfl rfl).1

/-- C3 counterexample: the sample returned for a zero-limit snapshot is the
plain five-field dict — the substitution is performed (the limit becomes
`max_usage` = 500) but no `limit_is_estimated` key exists to flag it, refuting
the claimed boolean marker. -/
theorem C3_no_flag_counterexample :
    (parse_stats ⟨some ⟨some ⟨some 0⟩, some 0, none⟩,
                  some ⟨some ⟨some 0⟩, some 0, none⟩,
                  some ⟨some 100, some 0, some 500⟩⟩).toOption =
      some ⟨0, 1, 100, 500, 20⟩ ∧
    ("limit_is_estimated") ∉ parseStatsKeys := by
  refine ⟨?_, by decide⟩
  simp [parse_stats, req, bind, Except.bind, Except.map, pure, Except.pure,
    Except.toOption]
  norm_num

/-- C5 (amended): parsing fails exactly when one of the fields reached with a
bare `[]` access is absent (the nested cpu counters or one of the three
sub-dictionaries); a missing `online_cpus` is tolerated with default 1 — but,
contrary to the claim, missing memory `usage` and `limit` fields are also
tolerated, with substituted defaults 0 and 1. A failing sample is dropped by
`collect_metrics` without affecting the samples around it. -/
theorem C5_malformed_snapshot (s : RawStats) :
    ((parse_stats s).isOk = requiredCounterFieldsPresent s) ∧
    (∀ pre post : List RawStats, (parse_stats s).isOk = false →
      collect_metrics (pre ++ s :: post) = collect_metrics pre ++ collect_metrics post) := by
  constructor
  · rcases s with ⟨cso, pcso, mso⟩
    rcases cso with _ | ⟨_ | ⟨_ | t⟩, _ | sy, onl⟩ <;>
      rcases pcso with _ | ⟨_ | ⟨_ | pt⟩, _ | psy, ponl⟩ <;>
        rcases mso with _ | ms <;>
          simp [parse_stats, req, requiredCounterFieldsPresent, bind, Except.bind,
            Except.map, pure, Except.pure, Except.isOk, Except.toBool]
  · intro pre post herr
    have hnone : (parse_stats s).toOption = none := by
      cases hps : parse_stats s with
      | ok a => rw [hps] at herr; simp [Except.isOk, Except.toBool] at herr
      | error e => simp [Except.toOption]
    simp [collect_metrics, List.filterMap_append, hnone]

/-- C5 witness: a snapshot missing the whole `cpu_stats` dictionary fails to
parse and is dropped from the collected window while the well-formed snapshot
after it is kept. -/
theorem C5_malformed_snapshot_witness :
    collect_metrics ([] ++ (⟨none, none, none⟩ : RawStats) ::
        [⟨some ⟨some ⟨some 5⟩, some 10, some 1⟩, some ⟨some ⟨some 3⟩, some 6, none⟩,
          some ⟨some 50, some 100, none⟩⟩]) =
      collect_metrics [] ++
        collect_metrics [⟨some ⟨some ⟨some 5⟩, some 10, some 1⟩,
          some ⟨some ⟨some 3⟩, some 6, none⟩, some ⟨some 50, some 100, none⟩⟩] :=
  (C5_malformed_snapshot ⟨none, none, none⟩).2 [] _ rfl

/-- C5 counterexample: a snapshot whose `memory_stats` dict is present but
carries neither `usage` nor `limit` parses successfully — the parser
substitutes the defaults 0 and 1 (yielding memory percent 0) instead of
failing with `MalformedSnapshot` as the claim requires. -/
theorem C5_defaults_counterexample :
    (parse_stats ⟨some ⟨some ⟨some 10⟩, some 20, some 1⟩,
                  some ⟨some ⟨some 5⟩, some 10, none⟩,
                  some ⟨none, none, none⟩⟩).toOption =
      some ⟨50, 1, 0, 1, 0⟩ := by
  simp [parse_stats, req, bind, Except.bind, Except.map, pure, Except.pure,
    Except.toOption]
  norm_num

/-- Characterization of the cpu entry of the findings dict: present exactly
when the window average is under the threshold and the first sample's core
count is non-zero (a zero count raises before the dict is built). -/
theorem findWaste_cpu (m0 : MetricSample) (rest : List MetricSample) :
    findWaste ("cpu") (m0 :: rest) =
      if avgCpu (m0 :: rest) < WASTE_THRESHOLD_CPU ∧ m0.cpu_limit ≠ 0 then
        some (cpuWaste (avgCpu (m0 :: rest)) m0.cpu_limit)
      else none := by
  by_cases h1 : avgCpu (m0 :: rest) < WASTE_THRESHOLD_CPU
  · by_cases h2 : m0.cpu_limit = 0
    · simp [findWaste, analyze, h1, h2, Except.toOption]
    · by_cases h3 : avgMem (m0 :: rest) < WASTE_THRESHOLD_MEMORY <;>
        simp [findWaste, analyze, h1, h2, h3, Except.toOption, List.lookup]
  · by_cases h3 : avgMem (m0 :: rest) < WASTE_THRESHOLD_MEMORY <;>
      simp [findWaste, analyze, h1, h3, Except.toOption, List.lookup]

/-- Characterization of the memory entry of the findings dict: present exactly
when the memory average is under its threshold and the cpu branch did not
raise. -/
theorem findWaste_mem (m0 : MetricSample) (rest : List MetricSample) :
    findWaste ("memory") (m0 :: rest) =
      if avgMem (m0 :: rest) < WASTE_THRESHOLD_MEMORY ∧
         ¬(avgCpu (m0 :: rest) < WASTE_THRESHOLD_CPU ∧ m0.cpu_limit = 0) then
        some (memWaste (avgUsage (m0 :: rest)) m0.memory_limit_bytes)
      else none := by
  by_cases h1 : avgCpu (m0 :: rest) < WASTE_THRESHOLD_CPU
  · by_cases h2 : m0.cpu_limit = 0
    · simp [findWaste, analyze, h1, h2, Except.toOption]
    · by_cases h3 : avgMem (m0 :: rest) < WASTE_THRESHOLD_MEMORY <;>
        simp [findWaste, analyze, h1, h2, h3, Except.toOption, List.lookup]
  · by_cases h3 : avgMem (m0 :: rest) < WASTE_THRESHOLD_MEMORY <;>
      simp [findWaste, analyze, h1, h3, Except.toOption, List.lookup]

/-- The cpu waste percent collapses to `100 - avg` for a non-zero core count. -/
theorem cpuWaste_waste_percent (avg : ℚ) (L : ℕ) (hL : L ≠ 0) :
    (cpuWaste avg L).waste_percent = 100 - avg := by
  have hq : (L : ℚ) ≠ 0 := Nat.cast_ne_zero.mpr hL
  simp only [cpuWaste]
  field_simp
  ring

/-- C1 (amended): on a non-empty window whose mean cpu percent is strictly
below 20 and whose first sample reports a non-zero core count, the classifier
emits a cpu finding with `used = avg/100 × allocated`,
`waste_amount = allocated − used`, `waste_percent = waste_amount/allocated × 100`,
a monthly cost equal to `waste_amount × COST_PER_CPU_HOUR × HOURS_PER_MONTH`
rounded to 2 decimal places (Python `round`), and a recommendation built from
`max(0.25, used × 1.5)`. -/
theorem C1_cpu_waste_fields (history : List MetricSample) (m0 : MetricSample)
    (rest : List MetricSample) (hh : history = m0 :: rest)
    (havg : avgCpu history < 20) (hL : m0.cpu_limit ≠ 0) :
    findWaste ("cpu") history = some (cpuWaste (avgCpu history) m0.cpu_limit) ∧
    (cpuWaste (avgCpu history) m0.cpu_limit).allocated = (m0.cpu_limit : ℚ) ∧
    (cpuWaste (avgCpu history) m0.cpu_limit).used =
      avgCpu history / 100 * (m0.cpu_limit : ℚ) ∧
    (cpuWaste (avgCpu history) m0.cpu_limit).waste_amount =
      (m0.cpu_limit : ℚ) - avgCpu history / 100 * (m0.cpu_limit : ℚ) ∧
    (cpuWaste (avgCpu history) m0.cpu_limit).waste_percent =
      ((m0.cpu_limit : ℚ) - avgCpu history / 100 * (m0.cpu_limit : ℚ)) /
        (m0.cpu_limit : ℚ) * 100 ∧
    (cpuWaste (avgCpu history) m0.cpu_limit).monthly_cost_waste =
      pyRound2 (((m0.cpu_limit : ℚ) - avgCpu history / 100 * (m0.cpu_limit : ℚ)) *
        COST_PER_CPU_HOUR * HOURS_PER_MONTH) ∧
    (cpuWaste (avgCpu history) m0.cpu_limit).recommend =
      cpuRecommendText (max 0.25 (avgCpu history / 100 * (m0.cpu_limit : ℚ) * 1.5)) := by
  subst hh
  rw [findWaste_cpu]
  rw [if_pos ⟨havg, hL⟩]
  exact ⟨rfl, rfl, rfl, rfl, rfl, rfl, rfl⟩

/-- C1 witness, the spec's Scenario B: a window averaging 10 percent on 2
allocated cores yields used 0.2, wasted 1.8, waste percent 90 and a monthly
cost of 1.8 × 0.04 × 730 = 52.56. -/
theorem C1_cpu_waste_fields_witness :
    (findWaste ("cpu") [⟨10, 2, 0, 1, 0⟩] =
      some (cpuWaste (avgCpu [⟨10, 2, 0, 1, 0⟩]) 2)) ∧
    (cpuWaste (avgCpu [⟨10, 2, 0, 1, 0⟩]) 2).used = 0.2 ∧
    (cpuWaste (avgCpu [⟨10, 2, 0, 1, 0⟩]) 2).waste_amount = 1.8 ∧
    (cpuWaste (avgCpu [⟨10, 2, 0, 1, 0⟩]) 2).waste_percent = 90 ∧
    (cpuWaste (avgCpu [⟨10, 2, 0, 1, 0⟩]) 2).monthly_cost_waste = 52.56 :=
  ⟨(C1_cpu_waste_fields [⟨10, 2, 0, 1, 0⟩] ⟨10, 2, 0, 1, 0⟩ [] rfl
      (by norm_num [avgCpu, mean]) (by norm_num)).1,
   by norm_num [cpuWaste, avgCpu, mean],
   by norm_num [cpuWaste, avgCpu, mean],
   by norm_num [cpuWaste, avgCpu, mean],
   by norm_num [cpuWaste, avgCpu, mean, pyRound2, roundHalfEven, COST_PER_CPU_HOUR,
     HOURS_PER_MONTH]⟩

/-- C1 counterexample: with one allocated core at 1 percent average the exact
monthly cost is 0.99 × 0.04 × 730 = 28.908 but the emitted finding stores the
rounded 28.91, so the stored cost is not the exact product the claim states. -/
theorem C1_monthly_rounding_counterexample :
    (findWaste ("cpu") [⟨1, 1, 0, 1, 0⟩]).map (fun w => w.monthly_cost_waste) =
      some 28.91 ∧
    (findWaste ("cpu") [⟨1, 1, 0, 1, 0⟩]).map
        (fun w => w.waste_amount * COST_PER_CPU_HOUR * HOURS_PER_MONTH) =
      some 28.908 ∧
    (28.91 : ℚ) ≠ 28.908 := by
  rw [findWaste_cpu]
  rw [if_pos (by constructor <;> norm_num [avgCpu, mean, WASTE_THRESHOLD_CPU])]
  refine ⟨?_, ?_, by norm_num⟩ <;>
    norm_num [cpuWaste, avgCpu, mean, pyRound2, roundHalfEven, COST_PER_CPU_HOUR,
      HOURS_PER_MONTH]

/-- C8: with the allocated core count held fixed, a window with a lower (or
equal) average cpu percent gets a greater (or equal) cpu waste percent —
the waste percent is antitone in the average utilization. -/
theorem C8_waste_percent_antitone (h₁ h₂ : List MetricSample)
    (m₁ m₂ : MetricSample) (r₁ r₂ : List MetricSample)
    (e₁ : h₁ = m₁ :: r₁) (e₂ : h₂ = m₂ :: r₂)
    (_hL : m₁.cpu_limit = m₂.cpu_limit) (w₁ w₂ : ResourceWaste)
    (f₁ : findWaste ("cpu") h₁ = some w₁) (f₂ : findWaste ("cpu") h₂ = some w₂)
    (havg : avgCpu h₂ ≤ avgCpu h₁) :
    w₁.waste_percent ≤ w₂.waste_percent := by
  subst e₁ e₂
  rw [findWaste_cpu] at f₁ f₂
  split_ifs at f₁ f₂ with hc₁ hc₂
  case pos =>
    have hw₁ := Option.some.inj f₁
    have hw₂ := Option.some.inj f₂
    rw [← hw₁, ← hw₂]
    rw [cpuWaste_waste_percent _ _ hc₁.2, cpuWaste_waste_percent _ _ hc₂.2]
    linarith

/-- C8 witness: dropping the average from 10 to 5 percent on 2 cores raises
the waste percent from 90 to 95. -/
theorem C8_waste_percent_antitone_witness :
    (cpuWaste (avgCpu [⟨10, 2, 0, 1, 0⟩]) 2).waste_percent ≤
      (cpuWaste (avgCpu [⟨5, 2, 0, 1, 0⟩]) 2).waste_percent :=
  C8_waste_percent_antitone [⟨10, 2, 0, 1, 0⟩] [⟨5, 2, 0, 1, 0⟩]
    ⟨10, 2, 0, 1, 0⟩ ⟨5, 2, 0, 1, 0⟩ [] [] rfl rfl rfl
    (cpuWaste (avgCpu [⟨10, 2, 0, 1, 0⟩]) 2)
    (cpuWaste (avgCpu [⟨5, 2, 0, 1, 0⟩]) 2)
    (by rw [findWaste_cpu,
        if_pos ⟨by norm_num [avgCpu, mean, WASTE_THRESHOLD_CPU], by norm_num⟩])
    (by rw [findWaste_cpu,
        if_pos ⟨by norm_num [avgCpu, mean, WASTE_THRESHOLD_CPU], by norm_num⟩])
    (by norm_num [avgCpu, mean])

/-- Mean of a list of non-negative rationals is non-negative. -/
theorem mean_nonneg (l : List ℚ) (h : ∀ x ∈ l, 0 ≤ x) : 0 ≤ mean l :=
  div_nonneg (List.sum_nonneg h) (Nat.cast_nonneg _)

/-- The memory waste percent never exceeds 100 when the averaged usage is
non-negative. -/
theorem memWaste_le_100 (avgU : ℚ) (B : ℕ) (hU : 0 ≤ avgU) :
    (memWaste avgU B).waste_percent ≤ 100 := by
  simp only [memWaste]
  split_ifs with h
  · have hused : 0 ≤ avgU / 1024 ^ 3 := by positivity
    have h1 : ((B : ℚ) / 1024 ^ 3 - avgU / 1024 ^ 3) / ((B : ℚ) / 1024 ^ 3) ≤ 1 := by
      rw [div_le_one h]
      linarith
    have h2 := mul_le_mul_of_nonneg_right h1 (by norm_num : (0 : ℚ) ≤ 100)
    simpa using h2
  · norm_num

/-- The memory waste percent is non-negative when the averaged usage does not
exceed the limit taken from the first sample. -/
theorem memWaste_nonneg_of_le (avgU : ℚ) (B : ℕ) (hle : avgU ≤ (B : ℚ)) :
    0 ≤ (memWaste avgU B).waste_percent := by
  simp only [memWaste]
  split_ifs with h
  · have hnum : 0 ≤ (B : ℚ) / 1024 ^ 3 - avgU / 1024 ^ 3 := by
      rw [sub_nonneg]
      gcongr
    exact mul_nonneg (div_nonneg hnum (le_of_lt h)) (by norm_num)
  · norm_num

/-- On a window whose samples all carry the same memory limit and a percent
consistent with their usage, the window's percent sum scales its usage sum. -/
theorem sum_map_percent (l : List MetricSample) (B : ℕ)
    (h : ∀ m ∈ l, m.memory_limit_bytes = B ∧
      m.memory_percent = (m.memory_usage_bytes : ℚ) / (m.memory_limit_bytes : ℚ) * 100) :
    (l.map fun m => m.memory_percent).sum =
      (l.map fun m => (m.memory_usage_bytes : ℚ)).sum * (100 / (B : ℚ)) := by
  induction l with
  | nil => simp
  | cons a t ih =>
    have ha := h a (by simp)
    have ht := ih (fun m hm => h m (by simp [hm]))
    simp only [List.map_cons, List.sum_cons, ht, ha.2, ha.1]
    ring

/-- On a consistent window the average percent is the average usage scaled by
the common limit. -/
theorem avgMem_eq (history : List MetricSample) (B : ℕ)
    (h : ∀ m ∈ history, m.memory_limit_bytes = B ∧
      m.memory_percent = (m.memory_usage_bytes : ℚ) / (m.memory_limit_bytes : ℚ) * 100) :
    avgMem history = avgUsage history * (100 / (B : ℚ)) := by
  simp only [avgMem, avgUsage, mean, sum_map_percent history B h, List.length_map]
  ring

/-- C9 (amended): a cpu finding on a window of samples with non-negative cpu
percents (true of every parser output) has waste percent within [0, 100]; a
memory finding always has waste percent at most 100, and at least 0 provided
every sample carries the first sample's memory limit and a percent consistent
with its usage — with heterogeneous limits in one window the memory waste
percent can be negative. -/
theorem C9_waste_percent_range (history : List MetricSample) (m0 : MetricSample)
    (rest : List MetricSample) (hh : history = m0 :: rest) :
    (∀ w, findWaste ("cpu") history = some w →
      (∀ m ∈ history, 0 ≤ m.cpu_percent) →
      0 ≤ w.waste_percent ∧ w.waste_percent ≤ 100) ∧
    (∀ w, findWaste ("memory") history = some w →
      w.waste_percent ≤ 100 ∧
      ((∀ m ∈ history, m.memory_limit_bytes = m0.memory_limit_bytes ∧
          m.memory_percent =
            (m.memory_usage_bytes : ℚ) / (m.memory_limit_bytes : ℚ) * 100) →
        0 ≤ w.waste_percent)) := by
  subst hh
  constructor
  · intro w hw hnn
    rw [findWaste_cpu] at hw
    split_ifs at hw with hc
    have hwq := Option.some.inj hw
    rw [← hwq, cpuWaste_waste_percent _ _ hc.2]
    have h20 : avgCpu (m0 :: rest) < 20 := by
      have h := hc.1
      simpa [WASTE_THRESHOLD_CPU] using h
    have h0 : 0 ≤ avgCpu (m0 :: rest) := by
      apply mean_nonneg
      intro x hx
      simp only [List.mem_map] at hx
      obtain ⟨m, hm, rfl⟩ := hx
      exact hnn m hm
    constructor <;> linarith
  · intro w hw
    rw [findWaste_mem] at hw
    split_ifs at hw with hc
    have hwq := Option.some.inj hw
    have hU : 0 ≤ avgUsage (m0 :: rest) := by
      apply mean_nonneg
      intro x hx
      simp only [List.mem_map] at hx
      obtain ⟨m, hm, rfl⟩ := hx
      positivity
    constructor
    · rw [← hwq]
      exact memWaste_le_100 _ _ hU
    · intro hcons
      rw [← hwq]
      by_cases hB : m0.memory_limit_bytes = 0
      · simp [memWaste, hB]
      · apply memWaste_nonneg_of_le
        have hBpos : (0 : ℚ) < (m0.memory_limit_bytes : ℚ) := by
          exact_mod_cast Nat.pos_of_ne_zero hB
        have heq := avgMem_eq (m0 :: rest) m0.memory_limit_bytes hcons
        have hlt : avgMem (m0 :: rest) < 30 := by
          have h := hc.1
          simpa [WASTE_THRESHOLD_MEMORY] using h
        rw [heq] at hlt
        have h2 := mul_lt_mul_of_pos_right hlt
          (show (0 : ℚ) < (m0.memory_limit_bytes : ℚ) / 100 by positivity)
        have h3 : avgUsage (m0 :: rest) * (100 / (m0.memory_limit_bytes : ℚ)) *
            ((m0.memory_limit_bytes : ℚ) / 100) = avgUsage (m0 :: rest) := by
          field_simp
        rw [h3] at h2
        linarith

/-- C9 witness: a one-sample window at 10 percent cpu on 2 cores has its cpu
waste percent inside [0, 100]. -/
theorem C9_waste_percent_range_witness :
    0 ≤ (cpuWaste (avgCpu [⟨10, 2, 100, 1000, 10⟩]) 2).waste_percent ∧
    (cpuWaste (avgCpu [⟨10, 2, 100, 1000, 10⟩]) 2).waste_percent ≤ 100 :=
  (C9_waste_percent_range [⟨10, 2, 100, 1000, 10⟩] ⟨10, 2, 100, 1000, 10⟩ [] rfl).1
    (cpuWaste (avgCpu [⟨10, 2, 100, 1000, 10⟩]) 2)
    (by rw [findWaste_cpu,
        if_pos ⟨by norm_num [avgCpu, mean, WASTE_THRESHOLD_CPU], by norm_num⟩])
    (by
      intro m hm
      simp only [List.mem_singleton] at hm
      subst hm
      norm_num)

/-- C9 counterexample: a two-sample window whose samples carry different
memory limits (both samples being genuine parser outputs, as the last two
conjuncts show) gets a memory finding with waste percent −5, outside [0, 100]:
the averaged usage 105 exceeds the first sample's limit 100. -/
theorem C9_negative_waste_counterexample :
    (findWaste ("memory") [⟨0, 1, 10, 100, 10⟩, ⟨0, 1, 200, 10000, 2⟩]).map
        (fun w => w.waste_percent) = some (-5) ∧
    ((-5 : ℚ) < 0) ∧
    (parse_stats ⟨some ⟨some ⟨some 0⟩, some 0, some 1⟩,
                  some ⟨some ⟨some 0⟩, some 0, none⟩,
                  some ⟨some 10, some 100, none⟩⟩).toOption =
      some ⟨0, 1, 10, 100, 10⟩ ∧
    (parse_stats ⟨some ⟨some ⟨some 0⟩, some 0, some 1⟩,
                  some ⟨some ⟨some 0⟩, some 0, none⟩,
                  some ⟨some 200, some 10000, none⟩⟩).toOption =
      some ⟨0, 1, 200, 10000, 2⟩ := by
  refine ⟨?_, by norm_num, ?_, ?_⟩
  · rw [findWaste_mem,
      if_pos ⟨by norm_num [avgMem, mean, WASTE_THRESHOLD_MEMORY], by simp⟩]
    simp only [Option.map_some]
    simp [memWaste, avgUsage, mean]
    norm_num
  · norm_num [parse_stats, req, bind, Except.bind, Except.map, pure, Except.pure,
      Except.toOption]
  · norm_num [parse_stats, req, bind, Except.bind, Except.map, pure, Except.pure,
      Except.toOption]

/-- Transitivity of the severity-rank comparison. -/
theorem severityLE_trans :
    ∀ a b c : SecurityIssue, severityLE a b → severityLE b c → severityLE a c := by
  intro a b c hab hbc
  simp only [severityLE, decide_eq_true_eq] at *
  omega

/-- Totality of the severity-rank comparison. -/
theorem severityLE_total : ∀ a b : SecurityIssue, severityLE a b || severityLE b a := by
  intro a b
  simp only [severityLE, Bool.or_eq_true, decide_eq_true_eq]
  omega

/-- C6: the security analysis returns its issues sorted by severity rank
(CRITICAL before HIGH before MEDIUM before LOW before INFO); within one
severity the issues appear exactly in check-registration order (the sort is
stable, so filtering the result at any severity gives the unsorted
concatenation's filtrate unchanged); and evaluating the same configuration
snapshot twice gives the identical list — the embedding is a pure function of
the snapshot, the image age being part of the snapshot data. -/
theorem C6_security_order (c : ContainerConfig) :
    ((securityAnalyze c).Pairwise fun a b =>
      severityOrder a.severity ≤ severityOrder b.severity) ∧
    (∀ s : Severity, (securityAnalyze c).filter (fun i => i.severity == s) =
      (allChecks c).filter (fun i => i.severity == s)) ∧
    (∀ c' : ContainerConfig, c = c' → securityAnalyze c = securityAnalyze c') := by
  refine ⟨?_, ?_, fun c' h => h ▸ rfl⟩
  · have h := List.sorted_mergeSort severityLE_trans severityLE_total (allChecks c)
    exact h.imp (fun hab => by simpa [severityLE] using hab)
  · intro s
    have hpair : ((allChecks c).filter (fun i => i.severity == s)).Pairwise
        (fun a b => severityLE a b) := by
      apply List.pairwise_of_forall_mem_list
      intro a ha b hb
      have ha2 : a.severity = s := by
        have := (List.mem_filter.mp ha).2
        simpa using this
      have hb2 : b.severity = s := by
        have := (List.mem_filter.mp hb).2
        simpa using this
      simp [severityLE, ha2, hb2]
    have hsub := List.sublist_mergeSort severityLE_trans severityLE_total hpair
      (List.filter_sublist (allChecks c))
    have hsub2 : List.Sublist ((allChecks c).filter (fun i => i.severity == s))
        ((securityAnalyze c).filter (fun i => i.severity == s)) := by
      have h2 := hsub.filter (fun i => i.severity == s)
      simpa [securityAnalyze, List.filter_filter] using h2
    have hlen : ((securityAnalyze c).filter (fun i => i.severity == s)).length =
        ((allChecks c).filter (fun i => i.severity == s)).length := by
      have hperm := List.mergeSort_perm (allChecks c) severityLE
      exact ((hperm.filter _).length_eq)
    exact (hsub2.eq_of_length hlen.symm).symm

/-- C6 witness: two evaluations of one concrete root-user configuration agree. -/
theorem C6_security_order_witness :
    securityAnalyze ⟨some (""), none, none, none, none, none, none, none, []⟩ =
      securityAnalyze ⟨some (""), none, none, none, none, none, none, none, []⟩ :=
  (C6_security_order ⟨some (""), none, none, none, none, none, none, none, []⟩).2.2 _ rfl

end DCA
